import Mathlib

/-!
Shallow embedding of the sfv-rs checksum manifest engine.

The definitions below are translated from the repository sources:
  src/cli/verify/task.rs  (per-entry verification task and counters)
  src/cli/verify/mod.rs   (verify run loop and exit-status decision)
  src/cli/generate.rs     (algorithm resolution, file enumeration filter,
                           result collection, display-manager counters)
  src/manifest/b2sum.rs, src/manifest/sha512sum.rs (format parsers)
The checksum provider (crate::checksum) and the shared manifest text core
(standard_from_str / standard_to_string in src/manifest/mod.rs) are not part
of the provided sources; where a definition is reconstructed from the
specification instead of the code, its doc comment says so explicitly.
-/

/-- Algorithm identifiers visible in the provided sources
(`ChecksumAlgorithm::SHA512`, `ChecksumAlgorithm::BLAKE2B512` in
src/manifest/sha512sum.rs and src/manifest/b2sum.rs). -/
inductive ChecksumAlgorithm
  | SHA512
  | BLAKE2B512
  deriving DecidableEq, Repr

/-- Modelled from the spec: the engine has a default algorithm
(`ChecksumAlgorithm::default()` in src/cli/generate.rs; the defining
`checksum.rs` is not among the provided sources).  Which algorithm is the
default never matters for the theorems below: an implied format algorithm
always takes precedence. -/
instance : Inhabited ChecksumAlgorithm := ⟨ChecksumAlgorithm.SHA512⟩

/-- Byte-interpretation mode of a checksum (spec §3, `ChecksumMode` in the
sources). -/
inductive ChecksumMode
  | Binary
  | Text
  deriving DecidableEq, Repr

/-- Modelled from the spec: a Checksum is `{algorithm, mode, digest}` and two
checksums are equal iff all three components are equal (spec §3; the defining
`checksum.rs` is not among the provided sources).  Digest bytes are naturals;
a well-formed digest has every byte < 256. -/
structure Checksum where
  algorithm : ChecksumAlgorithm
  mode : ChecksumMode
  digest : List Nat
  deriving DecidableEq, Repr

/-- Modelled from the spec: an opaque provider I/O failure cause
(`ChecksumError` in the missing checksum.rs); only its identity matters. -/
abbrev ChecksumError := String

/-- Per-entry verification status (src/cli/verify/task.rs, `VerifyTaskStatus`). -/
inductive VerifyTaskStatus
  | Valid
  | Invalid
  | Missing
  deriving DecidableEq, Repr

/-- Successful task result (src/cli/verify/task.rs, `VerifyTaskResult`). -/
structure VerifyTaskResult where
  status : VerifyTaskStatus
  filename : String
  actual : Option Checksum
  expected : Checksum
  deriving DecidableEq, Repr

/-- Failed task result (src/cli/verify/task.rs, `VerifyTaskError`). -/
structure VerifyTaskError where
  filepath : String
  message : String
  error : Option ChecksumError
  deriving DecidableEq, Repr

/-- The three shared verify counters (src/cli/verify/task.rs,
`VerifyTaskCounters`): note there is no bucket for errored entries. -/
structure VerifyTaskCounters where
  valid : Nat
  invalid : Nat
  missing : Nat
  deriving DecidableEq, Repr

/-- Environment a single verify task observes for its file: whether the path
names a regular file (`filepath.is_file()`), and the checksum provider as an
oracle from the algorithm and mode the task requests to a digest or an I/O
failure (`Checksum::from_file`, an external collaborator per spec §1). -/
structure VerifyEnv where
  isFile : Bool
  compute : ChecksumAlgorithm → ChecksumMode → Except ChecksumError Checksum

/-- Body of `VerifyTaskBuilder::verify_checksum` (src/cli/verify/task.rs,
lines 140-196): missing check first, then recomputation with the expected
entry's own algorithm and mode, equality comparison, and the counter update
each branch performs.  Returns the task's result together with the updated
counters. -/
def verify_checksum (env : VerifyEnv) (filename : String) (expected : Checksum)
    (counters : VerifyTaskCounters) :
    Except VerifyTaskError VerifyTaskResult × VerifyTaskCounters :=
  if env.isFile = false then
    (Except.ok { status := VerifyTaskStatus.Missing, filename := filename,
                 actual := none, expected := expected },
     { counters with missing := counters.missing + 1 })
  else
    match env.compute expected.algorithm expected.mode with
    | Except.ok actual =>
        if actual = expected then
          (Except.ok { status := VerifyTaskStatus.Valid, filename := filename,
                       actual := some actual, expected := expected },
           { counters with valid := counters.valid + 1 })
        else
          (Except.ok { status := VerifyTaskStatus.Invalid, filename := filename,
                       actual := some actual, expected := expected },
           { counters with invalid := counters.invalid + 1 })
    | Except.error err =>
        (Except.error { filepath := filename,
                        message := "Failed to calculate checksum",
                        error := some err },
         counters)

/-- Outcome classifiers over a task's returned value. -/
def isValidOutcome : Except VerifyTaskError VerifyTaskResult → Bool
  | Except.ok r => decide (r.status = VerifyTaskStatus.Valid)
  | Except.error _ => false

def isInvalidOutcome : Except VerifyTaskError VerifyTaskResult → Bool
  | Except.ok r => decide (r.status = VerifyTaskStatus.Invalid)
  | Except.error _ => false

def isMissingOutcome : Except VerifyTaskError VerifyTaskResult → Bool
  | Except.ok r => decide (r.status = VerifyTaskStatus.Missing)
  | Except.error _ => false

def isErroredOutcome : Except VerifyTaskError VerifyTaskResult → Bool
  | Except.ok _ => false
  | Except.error _ => true

/-- The verify run loop over the manifest entries (src/cli/verify/mod.rs,
lines 97-113): one task per `(filename, expected)` entry, each task updating
the shared counters; the per-file environment is an oracle from the filename.
Counters start at zero as in `VerifyTaskBuilder::new`. -/
def runVerify (env : String → VerifyEnv) (entries : List (String × Checksum)) :
    List (Except VerifyTaskError VerifyTaskResult) × VerifyTaskCounters :=
  entries.foldl
    (fun acc e =>
      let step := verify_checksum (env e.1) e.1 e.2 acc.2
      (acc.1 ++ [step.1], step.2))
    ([], ⟨0, 0, 0⟩)

/-- Exit-status decision at the end of a verify run (src/cli/verify/mod.rs,
lines 123-127): `std::process::exit(1)` iff the invalid counter is positive,
otherwise the run returns `Ok(())` and the process exits 0. -/
def verifyExitCode (counters : VerifyTaskCounters) : Nat :=
  if counters.invalid > 0 then 1 else 0

/-- Manifest formats whose parsers are among the provided sources
(`ManifestFormat::B2SUM` and the SHA512SUM format of src/manifest/sha512sum.rs;
the registry itself lives in the missing src/manifest/mod.rs). -/
inductive ManifestFormat
  | B2SUM
  | SHA512SUM
  deriving DecidableEq, Repr

/-- The `algorithm()` method of each format's parser: `B2SUMParser::algorithm`
returns `Some(BLAKE2B512)` (src/manifest/b2sum.rs, lines 37-39) and
`SHA512SUMParser::algorithm` returns `Some(SHA512)`
(src/manifest/sha512sum.rs, lines 33-35). -/
def formatAlgorithm : ManifestFormat → Option ChecksumAlgorithm
  | ManifestFormat.B2SUM => some ChecksumAlgorithm.BLAKE2B512
  | ManifestFormat.SHA512SUM => some ChecksumAlgorithm.SHA512

/-- Algorithm resolution in the generate flow (src/cli/generate.rs,
lines 292-297): the parser algorithm `unwrap_or(
options.algorithm.unwrap_or(ChecksumAlgorithm::default()))`. -/
def resolve_checksum_algorithm (implied requested : Option ChecksumAlgorithm) :
    ChecksumAlgorithm :=
  implied.getD (requested.getD default)

/-- The warning condition in the generate flow (src/cli/generate.rs,
lines 299-310): a warning is printed iff the user requested an algorithm and
it differs from the resolved one; the run then simply continues. -/
def algorithm_conflict_warning (requested : Option ChecksumAlgorithm)
    (resolved : ChecksumAlgorithm) : Bool :=
  match requested with
  | some a => decide (a ≠ resolved)
  | none => false

/-- One directory entry as produced by the glob walk in the generate flow:
its path as the list of components the walk yields (spelled with the scanned
directory prefix), and the three filesystem predicates the filter consults. -/
structure GlobEntry where
  path : List String
  pathExists : Bool
  isDir : Bool
  isSymlink : Bool
  deriving DecidableEq, Repr

/-- Rust `Path::ends_with`: the candidate child is a component suffix of the
base path (used as `manifest_filepath.ends_with(path)` in src/cli/generate.rs,
line 338). -/
def path_ends_with (base child : List String) : Bool :=
  decide (child <:+ base)

/-- The file-submission filter of the generate flow (src/cli/generate.rs,
lines 334-341): an entry is skipped iff it does not exist, is a directory,
is a symlink, or the manifest destination path ends with the entry's path;
every other entry gets a checksum task. -/
def submittedFiles (manifestFilepath : List String) (entries : List GlobEntry) :
    List GlobEntry :=
  entries.filter (fun e =>
    !(!e.pathExists || e.isDir || e.isSymlink
       || path_ends_with manifestFilepath e.path))

/-- Successful generate task result (src/cli/generate.rs,
`GenerateChecksumResult`). -/
structure GenerateChecksumResult where
  filepath : String
  checksum : Checksum
  deriving DecidableEq, Repr

/-- Failed generate task result (src/cli/generate.rs,
`GenerateChecksumError`). -/
structure GenerateChecksumError where
  filepath : String
  message : String
  error : Option ChecksumError
  deriving DecidableEq, Repr

/-- The two generate counters (src/cli/generate.rs,
`GenerateChecksumCounters`). -/
structure GenerateChecksumCounters where
  success : Nat
  error : Nat
  deriving DecidableEq, Repr

/-- Messages the generate display manager forwards to its single consumer
(the `Result` and `Error` variants of `DisplayMessage` in
src/cli/generate.rs). -/
inductive GenDisplayMessage
  | Result (r : GenerateChecksumResult)
  | Error (e : GenerateChecksumError)
  deriving DecidableEq, Repr

/-- `DisplayManager::report_checksum_result` (src/cli/generate.rs, lines
244-253): increment the success counter, then send the result message iff
display is enabled and verbosity is at least 1. -/
def report_checksum_result (disabled : Bool) (verbosity : Nat)
    (r : GenerateChecksumResult)
    (st : GenerateChecksumCounters × List GenDisplayMessage) :
    GenerateChecksumCounters × List GenDisplayMessage :=
  ({ st.1 with success := st.1.success + 1 },
   if !disabled && decide (verbosity ≥ 1) then
     st.2 ++ [GenDisplayMessage.Result r]
   else st.2)

/-- `DisplayManager::report_error` (src/cli/generate.rs, lines 255-261):
increment the error counter, then send the error message iff display is
enabled. -/
def report_error (disabled : Bool)
    (e : GenerateChecksumError)
    (st : GenerateChecksumCounters × List GenDisplayMessage) :
    GenerateChecksumCounters × List GenDisplayMessage :=
  ({ st.1 with error := st.1.error + 1 },
   if !disabled then st.2 ++ [GenDisplayMessage.Error e] else st.2)

/-- `HashMap::insert` on the collected artifacts, modelled on an association
list: replace the value when the key is present, otherwise append. -/
def insertArtifact (key : String) (value : Checksum)
    (artifacts : List (String × Checksum)) : List (String × Checksum) :=
  if artifacts.any (fun p => decide (p.1 = key)) then
    artifacts.map (fun p => if p.1 = key then (key, value) else p)
  else
    artifacts ++ [(key, value)]

/-- Accumulated state of the generate collection loop: the artifacts map under
construction, the display-manager counters, and the messages handed to the
display consumer. -/
structure GenCollectState where
  artifacts : List (String × Checksum)
  counters : GenerateChecksumCounters
  messages : List GenDisplayMessage
  deriving DecidableEq, Repr

/-- One iteration of the generate collection loop (src/cli/generate.rs, lines
387-405): a successful result is inserted into the artifacts map only when
`pathdiff::diff_paths` (the `relpath` oracle) yields a relative path, but
`report_checksum_result` runs in both branches; an errored result goes to
`report_error`. -/
def collect_step (disabled : Bool) (verbosity : Nat)
    (relpath : String → Option String) (st : GenCollectState)
    (r : Except GenerateChecksumError GenerateChecksumResult) :
    GenCollectState :=
  match r with
  | Except.ok result =>
      match relpath result.filepath with
      | some rel =>
          let rep := report_checksum_result disabled verbosity result
            (st.counters, st.messages)
          { artifacts := insertArtifact rel result.checksum st.artifacts,
            counters := rep.1, messages := rep.2 }
      | none =>
          let rep := report_checksum_result disabled verbosity result
            (st.counters, st.messages)
          { artifacts := st.artifacts, counters := rep.1, messages := rep.2 }
  | Except.error e =>
      let rep := report_error disabled e (st.counters, st.messages)
      { artifacts := st.artifacts, counters := rep.1, messages := rep.2 }

/-- The whole generate collection loop over the joined task results, starting
from an empty artifacts map and zeroed counters (src/cli/generate.rs, lines
386-405; counters start at zero in `DisplayManager::new`). -/
def collectResults (disabled : Bool) (verbosity : Nat)
    (relpath : String → Option String)
    (results : List (Except GenerateChecksumError GenerateChecksumResult)) :
    GenCollectState :=
  results.foldl (collect_step disabled verbosity relpath) ⟨[], ⟨0, 0⟩, []⟩

/-- The manifest value: optional version and the artifact mapping, here as the
association list in serialization order (spec §3; `Manifest` with
`version: Option<String>` and `artifacts` map as constructed in
src/cli/generate.rs, lines 411-418). -/
structure Manifest where
  version : Option String
  artifacts : List (String × Checksum)
  deriving DecidableEq, Repr

/-- Lowercase hex digit for a value below 16 (spec §3: canonical textual
encoding of digests is lowercase hex). -/
def hexDigitChar (n : Nat) : Char :=
  if n < 10 then Char.ofNat (48 + n) else Char.ofNat (87 + n)

/-- Two lowercase hex characters of one digest byte. -/
def byteToHex (b : Nat) : List Char :=
  [hexDigitChar (b / 16), hexDigitChar (b % 16)]

/-- Hex encoding of a whole digest. -/
def digestToHex (d : List Nat) : List Char :=
  d.flatMap byteToHex

/-- Value of one hex character, `none` for a non-hex character. -/
def hexDigitVal (c : Char) : Option Nat :=
  if 48 ≤ c.toNat ∧ c.toNat ≤ 57 then some (c.toNat - 48)
  else if 97 ≤ c.toNat ∧ c.toNat ≤ 102 then some (c.toNat - 87)
  else none

/-- Decode a hex string back into digest bytes; fails on odd length or a
non-hex character. -/
def hexToDigest : List Char → Option (List Nat)
  | [] => some []
  | hi :: lo :: rest =>
      match hexDigitVal hi, hexDigitVal lo, hexToDigest rest with
      | some h, some l, some d => some ((h * 16 + l) :: d)
      | _, _, _ => none
  | [_] => none

/-- Modelled from the spec: one manifest line of the sum-file dialect is the
artifact path, whitespace, and the hex digest (spec §6), with the
conventional `*` marker recording binary mode so the byte mode round-trips
(spec §3 requires the mode to be recorded per checksum).  The shared
serializer `standard_to_string` lives in src/manifest/mod.rs, which is not
among the provided sources; the textual grammar beyond this shape is
explicitly out of the spec's scope (spec §1). -/
def serializeEntryLine (path : String) (c : Checksum) : List Char :=
  path.data ++ ' ' ::
    ((if c.mode = ChecksumMode.Binary then ['*'] else []) ++ digestToHex c.digest)

/-- Modelled from the spec: parse one manifest line by splitting at the last
space, reading an optional binary-mode marker and the hex digest, and
attaching the algorithm the calling dialect implies (the shared parser
`standard_from_str` of the missing src/manifest/mod.rs takes the algorithm as
an argument, as its call sites in src/manifest/b2sum.rs line 47 and
src/manifest/sha512sum.rs line 43 show). -/
def parseEntryLine (alg : ChecksumAlgorithm) (line : List Char) :
    Option (String × Checksum) :=
  let rev := line.reverse
  let rdig := rev.takeWhile (fun ch => decide (ch ≠ ' '))
  if rdig.length = rev.length then none
  else
    let pathChars := (rev.drop (rdig.length + 1)).reverse
    if pathChars.isEmpty then none
    else
      let digPart := rdig.reverse
      if digPart.head? = some '*' then
        match hexToDigest digPart.tail with
        | some d => some (String.mk pathChars,
            { algorithm := alg, mode := ChecksumMode.Binary, digest := d })
        | none => none
      else
        match hexToDigest digPart with
        | some d => some (String.mk pathChars,
            { algorithm := alg, mode := ChecksumMode.Text, digest := d })
        | none => none

/-- Modelled from the spec: serialize a manifest to its list of text lines,
one line per artifact (`standard_to_string` of the missing
src/manifest/mod.rs, at line granularity).  The optional version header of
spec §6 belongs to the default dialect; these algorithm-locked sum-file
cores are modelled without one, because any header line whose marker could
coincide with an artifact key would contradict the round-trip law spec §8
asserts for every engine-produced manifest, and the Generate flow writes no
version at all (src/cli/generate.rs, lines 411-418). -/
def standard_to_string (m : Manifest) : List (List Char) :=
  m.artifacts.map (fun pc => serializeEntryLine pc.1 pc.2)

/-- Decode all entry lines, failing if any line is malformed. -/
def parseEntryLines (alg : ChecksumAlgorithm) :
    List (List Char) → Option (List (String × Checksum))
  | [] => some []
  | l :: ls =>
      match parseEntryLine alg l, parseEntryLines alg ls with
      | some e, some es => some (e :: es)
      | _, _ => none

/-- Modelled from the spec: parse manifest text lines, one artifact per line,
yielding a manifest with no version (`standard_from_str` of the missing
src/manifest/mod.rs, at line granularity; see the serializer's doc comment
for why these cores carry no version header). -/
def standard_from_str (alg : ChecksumAlgorithm) (lines : List (List Char)) :
    Option Manifest :=
  match parseEntryLines alg lines with
  | some es => some { version := none, artifacts := es }
  | none => none

/-- `parse_str` of each format's parser: both call the shared core with their
own implied algorithm (src/manifest/b2sum.rs lines 46-48,
src/manifest/sha512sum.rs lines 42-44; the `.unwrap()` is modelled by `getD`
since both formats declare an algorithm). -/
def manifestParse (fmt : ManifestFormat) (lines : List (List Char)) :
    Option Manifest :=
  standard_from_str ((formatAlgorithm fmt).getD default) lines

/-- `to_string` of each format's parser: both delegate to the shared
serializer unchanged (src/manifest/b2sum.rs lines 50-52,
src/manifest/sha512sum.rs lines 46-48). -/
def manifestSerialize (_fmt : ManifestFormat) (m : Manifest) :
    List (List Char) :=
  standard_to_string m

/-- Status symbol (src/cli/verify/task.rs, `VerifyTaskStatus::symbol`). -/
def statusSymbol : VerifyTaskStatus → List Char
  | VerifyTaskStatus.Valid => ['✓']
  | VerifyTaskStatus.Invalid => ['✗']
  | VerifyTaskStatus.Missing => ['?']

/-- The `Display` implementation for `VerifyTaskResult`
(src/cli/verify/task.rs, lines 46-75), with color codes elided (excluded by
spec §1): the Invalid arm formats `self.actual.as_ref().unwrap()`, so the
rendering is partial — `none` models the panic that unwrap of a missing
actual checksum would raise. -/
def displayVerifyTaskResult (r : VerifyTaskResult) : Option (List Char) :=
  match r.status with
  | VerifyTaskStatus.Valid =>
      some (statusSymbol r.status ++ ' ' :: r.filename.data
        ++ ' ' :: '(' :: digestToHex r.expected.digest ++ [')'])
  | VerifyTaskStatus.Invalid =>
      match r.actual with
      | some a =>
          some (statusSymbol r.status ++ ' ' :: r.filename.data
            ++ ' ' :: '(' :: digestToHex a.digest
            ++ ' ' :: '!' :: '=' :: ' ' :: digestToHex r.expected.digest ++ [')'])
      | none => none
  | VerifyTaskStatus.Missing =>
      some (statusSymbol r.status ++ ' ' :: r.filename.data)

/-- Whether a joined generate task result is the success variant. -/
def isOkResult : Except GenerateChecksumError GenerateChecksumResult → Bool
  | Except.ok _ => true
  | Except.error _ => false

/-- Whether the artifacts association list contains the given key. -/
def hasKey (artifacts : List (String × Checksum)) (k : String) : Bool :=
  artifacts.any (fun p => decide (p.1 = k))

/-- Concrete task environment fixture: the path is not a regular file. -/
def envMissing : VerifyEnv := ⟨false, fun _ _ => Except.error "unreachable"⟩

/-- Concrete task environment fixture: the file exists but every read fails. -/
def envIoError : VerifyEnv := ⟨true, fun _ _ => Except.error "io error"⟩

/-- Concrete expected-checksum fixture. -/
def chkEmpty : Checksum := ⟨ChecksumAlgorithm.SHA512, ChecksumMode.Binary, []⟩

theorem verify_checksum_fst_indep (env : VerifyEnv) (fn : String) (e : Checksum)
    (c c' : VerifyTaskCounters) :
    (verify_checksum env fn e c).1 = (verify_checksum env fn e c').1 := by
  unfold verify_checksum
  by_cases h : env.isFile = false
  · simp [h]
  · cases hcomp : env.compute e.algorithm e.mode with
    | ok a => by_cases heq : a = e <;> simp [h, hcomp, heq]
    | error err => simp [h, hcomp]

theorem verify_checksum_counters_eq (env : VerifyEnv) (fn : String) (e : Checksum)
    (c : VerifyTaskCounters) :
    (verify_checksum env fn e c).2 =
      { valid := c.valid + (isValidOutcome (verify_checksum env fn e c).1).toNat,
        invalid := c.invalid + (isInvalidOutcome (verify_checksum env fn e c).1).toNat,
        missing := c.missing + (isMissingOutcome (verify_checksum env fn e c).1).toNat } := by
  unfold verify_checksum
  by_cases h : env.isFile = false
  · simp [h, isValidOutcome, isInvalidOutcome, isMissingOutcome]
  · cases hcomp : env.compute e.algorithm e.mode with
    | ok a =>
        by_cases heq : a = e <;>
          simp [h, hcomp, heq, isValidOutcome, isInvalidOutcome, isMissingOutcome]
    | error err =>
        simp [h, hcomp, isValidOutcome, isInvalidOutcome, isMissingOutcome]

theorem outcome_exclusive (r : Except VerifyTaskError VerifyTaskResult) :
    (isValidOutcome r).toNat + (isInvalidOutcome r).toNat
      + (isMissingOutcome r).toNat + (isErroredOutcome r).toNat = 1 := by
  cases r with
  | ok v =>
      cases h : v.status <;>
        simp [isValidOutcome, isInvalidOutcome, isMissingOutcome, isErroredOutcome, h]
  | error e =>
      simp [isValidOutcome, isInvalidOutcome, isMissingOutcome, isErroredOutcome]

theorem runVerify_foldl_aux (env : String → VerifyEnv)
    (entries : List (String × Checksum)) :
    ∀ (rs0 : List (Except VerifyTaskError VerifyTaskResult))
      (c0 : VerifyTaskCounters),
    entries.foldl
      (fun acc e =>
        let step := verify_checksum (env e.1) e.1 e.2 acc.2
        (acc.1 ++ [step.1], step.2))
      (rs0, c0) =
    (rs0 ++ entries.map (fun e => (verify_checksum (env e.1) e.1 e.2 ⟨0, 0, 0⟩).1),
     { valid := c0.valid + (entries.map
         (fun e => (verify_checksum (env e.1) e.1 e.2 ⟨0, 0, 0⟩).1)).countP isValidOutcome,
       invalid := c0.invalid + (entries.map
         (fun e => (verify_checksum (env e.1) e.1 e.2 ⟨0, 0, 0⟩).1)).countP isInvalidOutcome,
       missing := c0.missing + (entries.map
         (fun e => (verify_checksum (env e.1) e.1 e.2 ⟨0, 0, 0⟩).1)).countP isMissingOutcome }) := by
  induction entries with
  | nil => intro rs0 c0; simp
  | cons e es ih =>
      intro rs0 c0
      rw [List.foldl_cons]
      show es.foldl _
        (rs0 ++ [(verify_checksum (env e.1) e.1 e.2 c0).1],
         (verify_checksum (env e.1) e.1 e.2 c0).2) = _
      rw [ih, verify_checksum_counters_eq (env e.1) e.1 e.2 c0,
        verify_checksum_fst_indep (env e.1) e.1 e.2 c0 ⟨0, 0, 0⟩]
      refine Prod.ext ?_ ?_
      · simp
      · simp only [List.map_cons, List.countP_cons, VerifyTaskCounters.mk.injEq]
        refine ⟨?_, ?_, ?_⟩
        · cases hb : isValidOutcome ((verify_checksum (env e.1) e.1 e.2 ⟨0, 0, 0⟩).1) <;>
            simp [hb] <;> omega
        · cases hb : isInvalidOutcome ((verify_checksum (env e.1) e.1 e.2 ⟨0, 0, 0⟩).1) <;>
            simp [hb] <;> omega
        · cases hb : isMissingOutcome ((verify_checksum (env e.1) e.1 e.2 ⟨0, 0, 0⟩).1) <;>
            simp [hb] <;> omega

theorem runVerify_eq (env : String → VerifyEnv)
    (entries : List (String × Checksum)) :
    runVerify env entries =
    (entries.map (fun e => (verify_checksum (env e.1) e.1 e.2 ⟨0, 0, 0⟩).1),
     { valid := (entries.map
         (fun e => (verify_checksum (env e.1) e.1 e.2 ⟨0, 0, 0⟩).1)).countP isValidOutcome,
       invalid := (entries.map
         (fun e => (verify_checksum (env e.1) e.1 e.2 ⟨0, 0, 0⟩).1)).countP isInvalidOutcome,
       missing := (entries.map
         (fun e => (verify_checksum (env e.1) e.1 e.2 ⟨0, 0, 0⟩).1)).countP isMissingOutcome }) := by
  unfold runVerify
  rw [runVerify_foldl_aux]
  simp

theorem verify_checksum_branches (env : VerifyEnv) (fn : String)
    (expected : Checksum) (c : VerifyTaskCounters) :
    (env.isFile = false ∧
      verify_checksum env fn expected c =
        (Except.ok ⟨VerifyTaskStatus.Missing, fn, none, expected⟩,
         { c with missing := c.missing + 1 })) ∨
    (∃ a, env.isFile = true ∧
      env.compute expected.algorithm expected.mode = Except.ok a ∧ a = expected ∧
      verify_checksum env fn expected c =
        (Except.ok ⟨VerifyTaskStatus.Valid, fn, some a, expected⟩,
         { c with valid := c.valid + 1 })) ∨
    (∃ a, env.isFile = true ∧
      env.compute expected.algorithm expected.mode = Except.ok a ∧ a ≠ expected ∧
      verify_checksum env fn expected c =
        (Except.ok ⟨VerifyTaskStatus.Invalid, fn, some a, expected⟩,
         { c with invalid := c.invalid + 1 })) ∨
    (∃ err, env.isFile = true ∧
      env.compute expected.algorithm expected.mode = Except.error err ∧
      verify_checksum env fn expected c =
        (Except.error ⟨fn, "Failed to calculate checksum", some err⟩, c)) := by
  by_cases hf : env.isFile = false
  · exact Or.inl ⟨hf, by simp [verify_checksum, hf]⟩
  · have hf' : env.isFile = true := by revert hf; cases env.isFile <;> simp
    cases hcomp : env.compute expected.algorithm expected.mode with
    | ok a =>
        by_cases heq : a = expected
        · exact Or.inr (Or.inl ⟨a, hf', rfl, heq,
            by simp [verify_checksum, hf', hcomp, heq]⟩)
        · exact Or.inr (Or.inr (Or.inl ⟨a, hf', rfl, heq,
            by simp [verify_checksum, hf', hcomp, heq]⟩))
    | error err =>
        exact Or.inr (Or.inr (Or.inr ⟨err, hf', rfl,
          by simp [verify_checksum, hf', hcomp]⟩))

/-- Claim C1: for every verify run that completes without a fatal error, the
process exit status is 1 iff the invalid counter is positive at the end of
the run, 0 iff it is zero, and the exit status of any two runs with equal
final invalid counters agrees — so the missing count (and the errored
entries, which have no counter at all) have no effect on the exit status. -/
theorem sfv_C1_exit_status_law (env : String → VerifyEnv)
    (entries : List (String × Checksum)) :
    (verifyExitCode (runVerify env entries).2 = 1 ↔
      0 < (runVerify env entries).2.invalid) ∧
    (verifyExitCode (runVerify env entries).2 = 0 ↔
      (runVerify env entries).2.invalid = 0) ∧
    (∀ (env' : String → VerifyEnv) (entries' : List (String × Checksum)),
      (runVerify env' entries').2.invalid = (runVerify env entries).2.invalid →
      verifyExitCode (runVerify env' entries').2 =
        verifyExitCode (runVerify env entries).2) := by
  refine ⟨?_, ?_, ?_⟩
  · unfold verifyExitCode; split <;> omega
  · unfold verifyExitCode; split <;> omega
  · intro env' entries' h
    unfold verifyExitCode
    rw [h]

/-- Witness for C1 at a concrete one-entry run whose file is missing: the
invalid counter ends at zero and the exit status is 0. -/
theorem sfv_C1_exit_status_law_witness :
    verifyExitCode (runVerify (fun _ => envMissing) [("a", chkEmpty)]).2 = 0 :=
  (sfv_C1_exit_status_law (fun _ => envMissing) [("a", chkEmpty)]).2.1.mpr rfl

/-- Claim C2: a verify task classifies its entry as Missing when the path is
not a regular file, otherwise recomputes with the expected checksum's own
algorithm and mode and yields Valid on value equality, Invalid (carrying both
the actual and the expected checksum) on inequality, and the distinct Errored
outcome on a provider I/O failure. -/
theorem sfv_C2_classification (env : VerifyEnv) (fn : String) (expected : Checksum)
    (c : VerifyTaskCounters) :
    (env.isFile = false →
      (verify_checksum env fn expected c).1 =
        Except.ok { status := VerifyTaskStatus.Missing, filename := fn,
                    actual := none, expected := expected }) ∧
    (env.isFile = true →
      (∀ a, env.compute expected.algorithm expected.mode = Except.ok a →
        (verify_checksum env fn expected c).1 =
          Except.ok { status := (if a = expected then VerifyTaskStatus.Valid
                        else VerifyTaskStatus.Invalid),
                      filename := fn, actual := some a, expected := expected }) ∧
      (∀ err, env.compute expected.algorithm expected.mode = Except.error err →
        (verify_checksum env fn expected c).1 =
          Except.error { filepath := fn,
                         message := "Failed to calculate checksum",
                         error := some err })) := by
  refine ⟨?_, ?_⟩
  · intro h
    simp [verify_checksum, h]
  · intro h
    refine ⟨?_, ?_⟩
    · intro a ha
      by_cases heq : a = expected <;> simp [verify_checksum, h, ha, heq]
    · intro err herr
      simp [verify_checksum, h, herr]

/-- Witness for C2 at a concrete missing file. -/
theorem sfv_C2_classification_witness :
    (verify_checksum envMissing "a" chkEmpty ⟨0, 0, 0⟩).1 =
      Except.ok { status := VerifyTaskStatus.Missing, filename := "a",
                  actual := none, expected := chkEmpty } :=
  (sfv_C2_classification envMissing "a" chkEmpty ⟨0, 0, 0⟩).1 rfl

/-- Claim C3: every verify task terminates in exactly one of the four
outcomes Valid, Invalid, Missing, Errored (their indicator counts sum to one
for each result), and over a whole run the four outcome counts sum to the
number of manifest entries. -/
theorem sfv_C3_totality (env : String → VerifyEnv)
    (entries : List (String × Checksum)) :
    ((runVerify env entries).1.countP isValidOutcome
      + (runVerify env entries).1.countP isInvalidOutcome
      + (runVerify env entries).1.countP isMissingOutcome
      + (runVerify env entries).1.countP isErroredOutcome = entries.length) ∧
    (∀ r ∈ (runVerify env entries).1,
      (isValidOutcome r).toNat + (isInvalidOutcome r).toNat
        + (isMissingOutcome r).toNat + (isErroredOutcome r).toNat = 1) := by
  have hb : ∀ b : Bool, (if b = true then 1 else 0) = b.toNat := by
    intro b; cases b <;> rfl
  have hsum : ∀ rs : List (Except VerifyTaskError VerifyTaskResult),
      rs.countP isValidOutcome + rs.countP isInvalidOutcome
        + rs.countP isMissingOutcome + rs.countP isErroredOutcome = rs.length := by
    intro rs
    induction rs with
    | nil => simp
    | cons r rs ih =>
        have h1 := outcome_exclusive r
        simp only [List.countP_cons, List.length_cons,
          hb (isValidOutcome r), hb (isInvalidOutcome r),
          hb (isMissingOutcome r), hb (isErroredOutcome r)]
        omega
  refine ⟨?_, ?_⟩
  · rw [hsum]
    rw [runVerify_eq]
    simp
  · intro r _
    exact outcome_exclusive r

/-- Witness for C3: the pointwise exclusivity instantiated at the single
Missing result of a concrete run. -/
theorem sfv_C3_totality_witness :
    (isValidOutcome (Except.ok ⟨VerifyTaskStatus.Missing, "a", none, chkEmpty⟩)).toNat
      + (isInvalidOutcome (Except.ok ⟨VerifyTaskStatus.Missing, "a", none, chkEmpty⟩)).toNat
      + (isMissingOutcome (Except.ok ⟨VerifyTaskStatus.Missing, "a", none, chkEmpty⟩)).toNat
      + (isErroredOutcome (Except.ok ⟨VerifyTaskStatus.Missing, "a", none, chkEmpty⟩)).toNat
      = 1 :=
  (sfv_C3_totality (fun _ => envMissing) [("a", chkEmpty)]).2 _
    (by simp [runVerify, verify_checksum, envMissing, chkEmpty])

/-- Claim C4 counterexample: a verify task whose checksum recomputation fails
with an I/O error terminates in the Errored outcome yet increments no counter
bucket at all — refuting the claim that every outcome, including Errored,
increments exactly one bucket. -/
theorem sfv_C4_counterexample :
    isErroredOutcome (verify_checksum envIoError "a.txt" chkEmpty ⟨0, 0, 0⟩).1 = true ∧
    (verify_checksum envIoError "a.txt" chkEmpty ⟨0, 0, 0⟩).2 = ⟨0, 0, 0⟩ :=
  ⟨rfl, rfl⟩

/-- Claim C4 as amended: a verify task's terminal step increments exactly the
one counter bucket matching its outcome for Valid, Invalid and Missing, but
an Errored verify task increments no bucket (the verify counters have no
errored bucket); in the generate flow each reported outcome increments
exactly its own bucket (success for results, error for errors) inside the
reporting call. -/
theorem sfv_C4_amended (env : VerifyEnv) (fn : String) (expected : Checksum)
    (c : VerifyTaskCounters) :
    (isValidOutcome (verify_checksum env fn expected c).1 = true →
      (verify_checksum env fn expected c).2 = { c with valid := c.valid + 1 }) ∧
    (isInvalidOutcome (verify_checksum env fn expected c).1 = true →
      (verify_checksum env fn expected c).2 = { c with invalid := c.invalid + 1 }) ∧
    (isMissingOutcome (verify_checksum env fn expected c).1 = true →
      (verify_checksum env fn expected c).2 = { c with missing := c.missing + 1 }) ∧
    (isErroredOutcome (verify_checksum env fn expected c).1 = true →
      (verify_checksum env fn expected c).2 = c) ∧
    (∀ (disabled : Bool) (verbosity : Nat) (r : GenerateChecksumResult)
       (e : GenerateChecksumError) (gc : GenerateChecksumCounters)
       (msgs : List GenDisplayMessage),
      (report_checksum_result disabled verbosity r (gc, msgs)).1 =
        { gc with success := gc.success + 1 } ∧
      (report_error disabled e (gc, msgs)).1 = { gc with error := gc.error + 1 }) := by
  have hbr := verify_checksum_branches env fn expected c
  refine ⟨?_, ?_, ?_, ?_, ?_⟩
  · intro h
    rcases hbr with ⟨hf, he⟩ | ⟨a, hf, hcomp, heq, he⟩ | ⟨a, hf, hcomp, heq, he⟩
      | ⟨err, hf, hcomp, he⟩ <;> rw [he] at h ⊢ <;>
      simp_all [isValidOutcome]
  · intro h
    rcases hbr with ⟨hf, he⟩ | ⟨a, hf, hcomp, heq, he⟩ | ⟨a, hf, hcomp, heq, he⟩
      | ⟨err, hf, hcomp, he⟩ <;> rw [he] at h ⊢ <;>
      simp_all [isInvalidOutcome]
  · intro h
    rcases hbr with ⟨hf, he⟩ | ⟨a, hf, hcomp, heq, he⟩ | ⟨a, hf, hcomp, heq, he⟩
      | ⟨err, hf, hcomp, he⟩ <;> rw [he] at h ⊢ <;>
      simp_all [isMissingOutcome]
  · intro h
    rcases hbr with ⟨hf, he⟩ | ⟨a, hf, hcomp, heq, he⟩ | ⟨a, hf, hcomp, heq, he⟩
      | ⟨err, hf, hcomp, he⟩ <;> rw [he] at h ⊢ <;>
      simp_all [isErroredOutcome]
  · intro disabled verbosity r e gc msgs
    exact ⟨rfl, rfl⟩

/-- Witness for the amended C4 at a concrete missing file: exactly the
missing bucket is incremented. -/
theorem sfv_C4_amended_witness :
    (verify_checksum envMissing "a" chkEmpty ⟨1, 2, 3⟩).2 = ⟨1, 2, 4⟩ :=
  (sfv_C4_amended envMissing "a" chkEmpty ⟨1, 2, 3⟩).2.2.1 rfl

/-- Claim C6: when the chosen format's parser declares an implied algorithm,
the generate flow resolves to that algorithm regardless of the requested
one; a warning is raised exactly when the user requested a different
algorithm, and the resolution still yields the implied algorithm (the run
continues, the warning being non-fatal). -/
theorem sfv_C6_implied_algorithm (fmt : ManifestFormat)
    (requested : Option ChecksumAlgorithm) (i : ChecksumAlgorithm)
    (h : formatAlgorithm fmt = some i) :
    resolve_checksum_algorithm (formatAlgorithm fmt) requested = i ∧
    (∀ a, requested = some a → a ≠ i →
      algorithm_conflict_warning requested
        (resolve_checksum_algorithm (formatAlgorithm fmt) requested) = true) ∧
    (requested = some i →
      algorithm_conflict_warning requested
        (resolve_checksum_algorithm (formatAlgorithm fmt) requested) = false) := by
  have h1 : resolve_checksum_algorithm (formatAlgorithm fmt) requested = i := by
    simp [resolve_checksum_algorithm, h]
  refine ⟨h1, ?_, ?_⟩
  · intro a ha hne
    rw [h1, ha]
    simp [algorithm_conflict_warning, hne]
  · intro ha
    rw [h1, ha]
    simp [algorithm_conflict_warning]

/-- Witness for C6 at the spec's Scenario E: requesting SHA-512 while
generating into the BLAKE2b-implying b2sum dialect resolves to BLAKE2b-512
and surfaces a warning. -/
theorem sfv_C6_implied_algorithm_witness :
    resolve_checksum_algorithm (formatAlgorithm ManifestFormat.B2SUM)
      (some ChecksumAlgorithm.SHA512) = ChecksumAlgorithm.BLAKE2B512 ∧
    algorithm_conflict_warning (some ChecksumAlgorithm.SHA512)
      (resolve_checksum_algorithm (formatAlgorithm ManifestFormat.B2SUM)
        (some ChecksumAlgorithm.SHA512)) = true :=
  ⟨(sfv_C6_implied_algorithm ManifestFormat.B2SUM (some ChecksumAlgorithm.SHA512)
      ChecksumAlgorithm.BLAKE2B512 rfl).1,
   (sfv_C6_implied_algorithm ManifestFormat.B2SUM (some ChecksumAlgorithm.SHA512)
      ChecksumAlgorithm.BLAKE2B512 rfl).2.1 ChecksumAlgorithm.SHA512 rfl
     (by decide)⟩

/-- Claim C7 counterexample: an existing regular, non-symlink file whose path
differs from the manifest destination is nevertheless not submitted, because
the destination path (here outside the scanned tree) merely ends with the
file's path components — refuting the claim that exactly the regular files
other than the destination are submitted. -/
theorem sfv_C7_counterexample :
    submittedFiles ["tmp", "dir", "sub", "f"]
      [⟨["dir", "sub", "f"], true, false, false⟩] = [] ∧
    (⟨["dir", "sub", "f"], true, false, false⟩ : GlobEntry).pathExists = true ∧
    (⟨["dir", "sub", "f"], true, false, false⟩ : GlobEntry).isDir = false ∧
    (⟨["dir", "sub", "f"], true, false, false⟩ : GlobEntry).isSymlink = false ∧
    (["dir", "sub", "f"] : List String) ≠ ["tmp", "dir", "sub", "f"] :=
  ⟨rfl, rfl, rfl, rfl, by decide⟩

/-- Claim C7 as amended: the generate flow submits exactly the existing
regular non-symlink entries whose globbed path is not a component suffix of
the manifest destination path.  In particular the destination itself is never
submitted (no self-hashing), but the suffix test can also exclude a distinct
file whose trailing components coincide with the destination's. -/
theorem sfv_C7_amended (manifestFilepath : List String)
    (entries : List GlobEntry) :
    (∀ e ∈ submittedFiles manifestFilepath entries,
      e.pathExists = true ∧ e.isDir = false ∧ e.isSymlink = false ∧
      ¬ (e.path <:+ manifestFilepath) ∧ e.path ≠ manifestFilepath) ∧
    (∀ e ∈ entries, e.pathExists = true → e.isDir = false →
      e.isSymlink = false → ¬ (e.path <:+ manifestFilepath) →
      e ∈ submittedFiles manifestFilepath entries) ∧
    (∀ e ∈ entries, e.path = manifestFilepath →
      e ∉ submittedFiles manifestFilepath entries) := by
  have hA : ∀ e ∈ submittedFiles manifestFilepath entries,
      e.pathExists = true ∧ e.isDir = false ∧ e.isSymlink = false ∧
      ¬ (e.path <:+ manifestFilepath) ∧ e.path ≠ manifestFilepath := by
    intro e he
    rw [submittedFiles, List.mem_filter] at he
    obtain ⟨-, hcond⟩ := he
    simp only [path_ends_with, Bool.not_or, Bool.and_eq_true, Bool.not_eq_true',
      Bool.not_eq_true, decide_eq_false_iff_not] at hcond
    obtain ⟨⟨⟨h1, h2⟩, h3⟩, h4⟩ := hcond
    refine ⟨by simpa using h1, h2, h3, h4, ?_⟩
    intro hEq
    exact h4 (hEq ▸ List.suffix_refl manifestFilepath)
  refine ⟨hA, ?_, ?_⟩
  · intro e he h1 h2 h3 h4
    rw [submittedFiles, List.mem_filter]
    refine ⟨he, ?_⟩
    simp [path_ends_with, h1, h2, h3, h4]
  · intro e he hEq hmem
    exact (hA e hmem).2.2.2.2 hEq

/-- Witness for the amended C7: the manifest destination itself, listed as a
regular file of the scanned tree, is not submitted. -/
theorem sfv_C7_amended_witness :
    (⟨["dir", "m"], true, false, false⟩ : GlobEntry) ∉
      submittedFiles ["dir", "m"] [⟨["dir", "m"], true, false, false⟩] :=
  (sfv_C7_amended ["dir", "m"] [⟨["dir", "m"], true, false, false⟩]).2.2 _
    (List.mem_singleton.mpr rfl) rfl

/-- Claim C10: every result a verify task produces has an actual checksum
present for the Valid and Invalid statuses and absent for Missing, so the
Display rendering — which unwraps the actual checksum in the Invalid arm —
is total on produced results. -/
theorem sfv_C10_actual_invariant (env : VerifyEnv) (fn : String)
    (expected : Checksum) (c : VerifyTaskCounters) (r : VerifyTaskResult)
    (h : (verify_checksum env fn expected c).1 = Except.ok r) :
    ((r.status = VerifyTaskStatus.Valid ∨ r.status = VerifyTaskStatus.Invalid) →
      r.actual.isSome = true) ∧
    (r.status = VerifyTaskStatus.Missing → r.actual = none) ∧
    (displayVerifyTaskResult r).isSome = true := by
  rcases verify_checksum_branches env fn expected c with ⟨hf, he⟩ |
    ⟨a, hf, hcomp, heq, he⟩ | ⟨a, hf, hcomp, heq, he⟩ | ⟨err, hf, hcomp, he⟩
  · rw [he] at h
    obtain rfl : r = ⟨VerifyTaskStatus.Missing, fn, none, expected⟩ := by
      injection h with h'
      exact h'.symm
    refine ⟨?_, ?_, ?_⟩ <;> simp [displayVerifyTaskResult]
  · rw [he] at h
    obtain rfl : r = ⟨VerifyTaskStatus.Valid, fn, some a, expected⟩ := by
      injection h with h'
      exact h'.symm
    refine ⟨?_, ?_, ?_⟩ <;> simp [displayVerifyTaskResult]
  · rw [he] at h
    obtain rfl : r = ⟨VerifyTaskStatus.Invalid, fn, some a, expected⟩ := by
      injection h with h'
      exact h'.symm
    refine ⟨?_, ?_, ?_⟩ <;> simp [displayVerifyTaskResult]
  · rw [he] at h
    simp at h

/-- Witness for C10 at a concrete missing file: the produced Missing result
renders without panicking. -/
theorem sfv_C10_actual_invariant_witness :
    (displayVerifyTaskResult
      ⟨VerifyTaskStatus.Missing, "a", none, chkEmpty⟩).isSome = true :=
  (sfv_C10_actual_invariant envMissing "a" chkEmpty ⟨0, 0, 0⟩ _ rfl).2.2

theorem hasKey_insertArtifact (key : String) (v : Checksum)
    (arts : List (String × Checksum)) (k : String) :
    hasKey (insertArtifact key v arts) k = true ↔
      (hasKey arts k = true ∨ k = key) := by
  by_cases hkk : k = key
  · subst hkk
    refine ⟨fun _ => Or.inr rfl, fun _ => ?_⟩
    unfold insertArtifact hasKey
    by_cases hp : arts.any (fun p => decide (p.1 = k)) = true
    · rw [if_pos hp]
      obtain ⟨p, hmem, hpk⟩ := List.any_eq_true.mp hp
      rw [decide_eq_true_eq] at hpk
      refine List.any_eq_true.mpr ⟨(k, v), ?_, by simp⟩
      exact List.mem_map.mpr ⟨p, hmem, by rw [if_pos hpk]⟩
    · rw [if_neg hp]
      exact List.any_eq_true.mpr ⟨(k, v), by simp, by simp⟩
  · constructor
    · intro h1
      refine Or.inl ?_
      simp only [insertArtifact, hasKey] at h1 ⊢
      by_cases hp : arts.any (fun p => decide (p.1 = key)) = true
      · rw [if_pos hp] at h1
        obtain ⟨q, hqmem, hqk⟩ := List.any_eq_true.mp h1
        obtain ⟨p, hpmem, hfp⟩ := List.mem_map.mp hqmem
        rw [decide_eq_true_eq] at hqk
        by_cases hpkey : p.1 = key
        · rw [if_pos hpkey] at hfp
          rw [← hfp] at hqk
          exact absurd hqk.symm hkk
        · rw [if_neg hpkey] at hfp
          subst hfp
          exact List.any_eq_true.mpr ⟨p, hpmem, by simp [hqk]⟩
      · rw [if_neg hp] at h1
        rw [List.any_append] at h1
        simp only [Bool.or_eq_true] at h1
        rcases h1 with h1 | h1
        · exact h1
        · simp only [List.any_cons, List.any_nil, Bool.or_false,
            decide_eq_true_eq] at h1
          exact absurd h1.symm hkk
    · intro h2
      rcases h2 with h1 | h2
      · simp only [insertArtifact, hasKey] at h1 ⊢
        by_cases hp : arts.any (fun p => decide (p.1 = key)) = true
        · rw [if_pos hp]
          obtain ⟨p, hpmem, hpk⟩ := List.any_eq_true.mp h1
          rw [decide_eq_true_eq] at hpk
          have hpkey : p.1 ≠ key := fun hc => hkk ((hpk ▸ hc : k = key))
          refine List.any_eq_true.mpr
            ⟨p, List.mem_map.mpr ⟨p, hpmem, if_neg hpkey⟩, by simp [hpk]⟩
        · rw [if_neg hp]
          rw [List.any_append]
          simp [h1]
      · exact absurd h2 hkk

theorem collect_step_success (d : Bool) (v : Nat) (rp : String → Option String)
    (st : GenCollectState)
    (r : Except GenerateChecksumError GenerateChecksumResult) :
    (collect_step d v rp st r).counters.success =
      st.counters.success + (isOkResult r).toNat := by
  cases r with
  | ok res =>
      cases hrp : rp res.filepath <;>
        simp [collect_step, report_checksum_result, hrp, isOkResult]
  | error e => simp [collect_step, report_error, isOkResult]

theorem collect_step_error (d : Bool) (v : Nat) (rp : String → Option String)
    (st : GenCollectState)
    (r : Except GenerateChecksumError GenerateChecksumResult) :
    (collect_step d v rp st r).counters.error =
      st.counters.error + (!isOkResult r).toNat := by
  cases r with
  | ok res =>
      cases hrp : rp res.filepath <;>
        simp [collect_step, report_checksum_result, hrp, isOkResult]
  | error e => simp [collect_step, report_error, isOkResult]

theorem collect_step_hasKey (d : Bool) (v : Nat) (rp : String → Option String)
    (st : GenCollectState)
    (r : Except GenerateChecksumError GenerateChecksumResult) (k : String) :
    (hasKey (collect_step d v rp st r).artifacts k = true ↔
      (hasKey st.artifacts k = true ∨
        ∃ res, r = Except.ok res ∧ rp res.filepath = some k)) := by
  cases r with
  | ok res =>
      cases hrp : rp res.filepath with
      | some rel =>
          simp only [collect_step, hrp]
          rw [hasKey_insertArtifact]
          constructor
          · rintro (hk | rfl)
            · exact Or.inl hk
            · exact Or.inr ⟨res, rfl, hrp⟩
          · rintro (hk | ⟨res', hres', hrp'⟩)
            · exact Or.inl hk
            · injection hres' with hres''
              subst hres''
              rw [hrp] at hrp'
              injection hrp' with h
              exact Or.inr h.symm
      | none => simp [collect_step, hrp]
  | error e => simp [collect_step]

theorem collect_step_messages (d : Bool) (v : Nat)
    (rp rp' : String → Option String) (st st' : GenCollectState)
    (h : st.messages = st'.messages) (_hc : st.counters = st'.counters)
    (r : Except GenerateChecksumError GenerateChecksumResult) :
    (collect_step d v rp st r).messages =
      (collect_step d v rp' st' r).messages := by
  cases r with
  | ok res =>
      cases hrp : rp res.filepath <;> cases hrp' : rp' res.filepath <;>
        simp [collect_step, report_checksum_result, hrp, hrp', h]
  | error e => simp [collect_step, report_error, h]

theorem collect_step_counters_indep (d : Bool) (v : Nat)
    (rp rp' : String → Option String) (st st' : GenCollectState)
    (hc : st.counters = st'.counters)
    (r : Except GenerateChecksumError GenerateChecksumResult) :
    (collect_step d v rp st r).counters =
      (collect_step d v rp' st' r).counters := by
  cases r with
  | ok res =>
      cases hrp : rp res.filepath <;> cases hrp' : rp' res.filepath <;>
        simp [collect_step, report_checksum_result, hrp, hrp', hc]
  | error e => simp [collect_step, report_error, hc]

theorem collectResults_foldl_aux (d : Bool) (v : Nat)
    (rp : String → Option String)
    (results : List (Except GenerateChecksumError GenerateChecksumResult)) :
    ∀ st0 : GenCollectState,
    ((results.foldl (collect_step d v rp) st0).counters.success =
      st0.counters.success + results.countP isOkResult) ∧
    ((results.foldl (collect_step d v rp) st0).counters.error =
      st0.counters.error + results.countP (fun r => !isOkResult r)) ∧
    (∀ k, hasKey (results.foldl (collect_step d v rp) st0).artifacts k = true ↔
      (hasKey st0.artifacts k = true ∨
        ∃ res, Except.ok res ∈ results ∧ rp res.filepath = some k)) ∧
    (∀ (rp' : String → Option String) (st0' : GenCollectState),
      st0.messages = st0'.messages → st0.counters = st0'.counters →
      (results.foldl (collect_step d v rp) st0).messages =
        (results.foldl (collect_step d v rp') st0').messages) := by
  induction results with
  | nil =>
      intro st0
      refine ⟨by simp, by simp, by simp, ?_⟩
      intro rp' st0' h hc
      simpa using h
  | cons r rs ih =>
      intro st0
      have hb : ∀ b : Bool, (if b = true then 1 else 0) = b.toNat := by
        intro b; cases b <;> rfl
      refine ⟨?_, ?_, ?_, ?_⟩
      · rw [List.foldl_cons, (ih _).1, collect_step_success]
        simp only [List.countP_cons, hb (isOkResult r)]
        omega
      · rw [List.foldl_cons, (ih _).2.1, collect_step_error]
        simp only [List.countP_cons, hb (!isOkResult r)]
        omega
      · intro k
        rw [List.foldl_cons]
        rw [(ih _).2.2.1 k, collect_step_hasKey]
        constructor
        · rintro ((hk | ⟨res, hres, hrp⟩) | ⟨res, hmem, hrp⟩)
          · exact Or.inl hk
          · exact Or.inr ⟨res, by simp [hres], hrp⟩
          · exact Or.inr ⟨res, List.mem_cons_of_mem _ hmem, hrp⟩
        · rintro (hk | ⟨res, hmem, hrp⟩)
          · exact Or.inl (Or.inl hk)
          · rcases List.mem_cons.mp hmem with hres | hmem'
            · exact Or.inl (Or.inr ⟨res, hres.symm, hrp⟩)
            · exact Or.inr ⟨res, hmem', hrp⟩
      · intro rp' st0' h hc
        rw [List.foldl_cons, List.foldl_cons]
        exact (ih _).2.2.2 rp' _
          (collect_step_messages d v rp rp' st0 st0' h hc r)
          (collect_step_counters_indep d v rp rp' st0 st0' hc r)

/-- Claim C9: in the generate collection loop the success counter counts all
successful checksum results and the error counter all failed ones, the
written manifest's keys are exactly the relative paths of successful results
whose path is expressible relative to the scanned directory, and the
messages handed to the reporter do not depend on that expressibility — so a
successful result with an inexpressible path is counted and reported yet
absent from the manifest. -/
theorem sfv_C9_relative_path (disabled : Bool) (verbosity : Nat)
    (relpath : String → Option String)
    (results : List (Except GenerateChecksumError GenerateChecksumResult)) :
    ((collectResults disabled verbosity relpath results).counters.success =
      results.countP isOkResult) ∧
    ((collectResults disabled verbosity relpath results).counters.error =
      results.countP (fun r => !isOkResult r)) ∧
    (∀ k, hasKey (collectResults disabled verbosity relpath results).artifacts k
        = true ↔
      ∃ res, Except.ok res ∈ results ∧ relpath res.filepath = some k) ∧
    (∀ relpath' : String → Option String,
      (collectResults disabled verbosity relpath' results).messages =
        (collectResults disabled verbosity relpath results).messages) := by
  have haux := collectResults_foldl_aux disabled verbosity relpath results
    ⟨[], ⟨0, 0⟩, []⟩
  refine ⟨?_, ?_, ?_, ?_⟩
  · unfold collectResults
    rw [haux.1]
    simp
  · unfold collectResults
    rw [haux.2.1]
    simp
  · intro k
    unfold collectResults
    rw [haux.2.2.1 k]
    simp [hasKey]
  · intro relpath'
    exact (collectResults_foldl_aux disabled verbosity relpath' results
      ⟨[], ⟨0, 0⟩, []⟩).2.2.2 relpath ⟨[], ⟨0, 0⟩, []⟩ rfl rfl

/-- Witness for C9: one successful result whose path is not expressible
relative to the scanned directory is counted as a success but yields no
manifest key. -/
theorem sfv_C9_relative_path_witness :
    ((collectResults false 1 (fun _ => none)
      [Except.ok ⟨"f", chkEmpty⟩]).counters.success = 1) ∧
    (hasKey (collectResults false 1 (fun _ => none)
      [Except.ok ⟨"f", chkEmpty⟩]).artifacts "f" = false) := by
  have h := sfv_C9_relative_path false 1 (fun _ => none)
    [Except.ok ⟨"f", chkEmpty⟩]
  refine ⟨by rw [h.1]; rfl, ?_⟩
  cases hk : hasKey (collectResults false 1 (fun _ => none)
      [Except.ok ⟨"f", chkEmpty⟩]).artifacts "f" with
  | false => rfl
  | true =>
      obtain ⟨res, -, hrp⟩ := (h.2.2.1 "f").mp hk
      simp at hrp

theorem hexDigitVal_hexDigitChar : ∀ n : Fin 16,
    hexDigitVal (hexDigitChar n.val) = some n.val := by decide

theorem hexDigitChar_ne : ∀ n : Fin 16,
    hexDigitChar n.val ≠ ' ' ∧ hexDigitChar n.val ≠ '*' := by decide

theorem hexToDigest_digestToHex (d : List Nat) (hd : ∀ b ∈ d, b < 256) :
    hexToDigest (digestToHex d) = some d := by
  induction d with
  | nil => rfl
  | cons b bs ih =>
      have hb : b < 256 := hd b (List.mem_cons_self b bs)
      have h1 : b / 16 < 16 := by omega
      have h2 : b % 16 < 16 := Nat.mod_lt _ (by norm_num)
      have e1 := hexDigitVal_hexDigitChar ⟨b / 16, h1⟩
      have e2 := hexDigitVal_hexDigitChar ⟨b % 16, h2⟩
      have ih' := ih (fun x hx => hd x (List.mem_cons_of_mem _ hx))
      show hexToDigest (hexDigitChar (b / 16) :: hexDigitChar (b % 16)
        :: digestToHex bs) = some (b :: bs)
      simp only [hexToDigest, e1, e2, ih']
      have hbval : b / 16 * 16 + b % 16 = b := by omega
      rw [hbval]

theorem digestToHex_chars (d : List Nat) (hd : ∀ b ∈ d, b < 256) :
    ∀ ch ∈ digestToHex d, ch ≠ ' ' ∧ ch ≠ '*' := by
  intro ch hch
  unfold digestToHex at hch
  rw [List.mem_flatMap] at hch
  obtain ⟨b, hb, hchb⟩ := hch
  have hblt := hd b hb
  have h1 : b / 16 < 16 := by omega
  have h2 : b % 16 < 16 := Nat.mod_lt _ (by norm_num)
  unfold byteToHex at hchb
  simp only [List.mem_cons, List.not_mem_nil, or_false] at hchb
  rcases hchb with h | h
  · exact h ▸ hexDigitChar_ne ⟨b / 16, h1⟩
  · exact h ▸ hexDigitChar_ne ⟨b % 16, h2⟩

theorem takeWhile_append_stop {α} (p : α → Bool) (l₁ l₂ : List α) (a : α)
    (h₁ : ∀ x ∈ l₁, p x = true) (h₂ : p a = false) :
    (l₁ ++ a :: l₂).takeWhile p = l₁ := by
  induction l₁ with
  | nil => simp [List.takeWhile_cons, h₂]
  | cons x xs ih =>
      have hx := h₁ x (List.mem_cons_self _ _)
      simp [List.takeWhile_cons, hx,
        ih (fun y hy => h₁ y (List.mem_cons_of_mem _ hy))]

theorem drop_length_append {α} (l₁ l₂ : List α) (a : α) :
    (l₁ ++ a :: l₂).drop (l₁.length + 1) = l₂ := by
  have h : l₁ ++ a :: l₂ = (l₁ ++ [a]) ++ l₂ := by simp
  have hlen : (l₁ ++ [a]).length = l₁.length + 1 := by simp
  rw [h, ← hlen]
  exact List.drop_left _ _

theorem parseEntryLine_serializeEntryLine (alg : ChecksumAlgorithm)
    (path : String) (c : Checksum) (hp : path ≠ "") (halg : c.algorithm = alg)
    (hd : ∀ b ∈ c.digest, b < 256) :
    parseEntryLine alg (serializeEntryLine path c) = some (path, c) := by
  obtain ⟨calg, cmode, cdig⟩ := c
  simp only [Checksum.mk.injEq] at halg ⊢
  obtain rfl : calg = alg := halg
  have hdig : ∀ b ∈ cdig, b < 256 := hd
  have hpd : path.data ≠ [] := by
    intro h
    apply hp
    cases path
    simp_all
  have hhex := hexToDigest_digestToHex cdig hdig
  have hchars := digestToHex_chars cdig hdig
  cases cmode with
  | Binary =>
      have hline : serializeEntryLine path ⟨calg, ChecksumMode.Binary, cdig⟩ =
          path.data ++ ' ' :: ('*' :: digestToHex cdig) := by
        simp [serializeEntryLine]
      rw [hline]
      unfold parseEntryLine
      have hrev : (path.data ++ ' ' :: ('*' :: digestToHex cdig)).reverse =
          ('*' :: digestToHex cdig).reverse ++ ' ' :: path.data.reverse := by
        simp
      simp only [hrev]
      have htw : (('*' :: digestToHex cdig).reverse
            ++ ' ' :: path.data.reverse).takeWhile
              (fun ch => decide (ch ≠ ' ')) = ('*' :: digestToHex cdig).reverse := by
        refine takeWhile_append_stop _ _ _ _ ?_ (by decide)
        intro x hx
        rw [List.mem_reverse, List.mem_cons] at hx
        rcases hx with h | h
        · simp [h]
        · simp [(hchars x h).1]
      rw [htw]
      have hlen_ne : ¬ (('*' :: digestToHex cdig).reverse.length =
          (('*' :: digestToHex cdig).reverse ++ ' ' :: path.data.reverse).length) := by
        simp
      rw [if_neg hlen_ne]
      rw [drop_length_append]
      have hne_empty : ¬ (path.data.reverse.reverse.isEmpty = true) := by
        simp [List.isEmpty_iff, hpd]
      rw [if_neg hne_empty]
      simp only [List.reverse_reverse, List.head?_cons]
      rw [if_pos trivial]
      simp only [List.tail_cons, hhex]
  | Text =>
      have hline : serializeEntryLine path ⟨calg, ChecksumMode.Text, cdig⟩ =
          path.data ++ ' ' :: digestToHex cdig := by
        simp [serializeEntryLine]
      rw [hline]
      unfold parseEntryLine
      have hrev : (path.data ++ ' ' :: digestToHex cdig).reverse =
          (digestToHex cdig).reverse ++ ' ' :: path.data.reverse := by
        simp
      simp only [hrev]
      have htw : ((digestToHex cdig).reverse
            ++ ' ' :: path.data.reverse).takeWhile
              (fun ch => decide (ch ≠ ' ')) = (digestToHex cdig).reverse := by
        refine takeWhile_append_stop _ _ _ _ ?_ (by decide)
        intro x hx
        rw [List.mem_reverse] at hx
        simp [(hchars x hx).1]
      rw [htw]
      have hlen_ne : ¬ ((digestToHex cdig).reverse.length =
          ((digestToHex cdig).reverse ++ ' ' :: path.data.reverse).length) := by
        simp
      rw [if_neg hlen_ne]
      rw [drop_length_append]
      have hne_empty : ¬ (path.data.reverse.reverse.isEmpty = true) := by
        simp [List.isEmpty_iff, hpd]
      rw [if_neg hne_empty]
      simp only [List.reverse_reverse]
      have hhead : ¬ ((digestToHex cdig).head? = some '*') := by
        cases hdx : digestToHex cdig with
        | nil => simp
        | cons ch rest =>
            have hmem : ch ∈ digestToHex cdig := by
              rw [hdx]
              exact List.mem_cons_self _ _
            simp [(hchars ch hmem).2]
      rw [if_neg hhead]
      simp only [hhex]

theorem parseEntryLines_serialize (alg : ChecksumAlgorithm)
    (arts : List (String × Checksum))
    (h : ∀ pc ∈ arts, pc.1 ≠ "" ∧ pc.2.algorithm = alg ∧
      ∀ b ∈ pc.2.digest, b < 256) :
    parseEntryLines alg (arts.map (fun pc => serializeEntryLine pc.1 pc.2)) =
      some arts := by
  induction arts with
  | nil => rfl
  | cons pc rest ih =>
      obtain ⟨h1, h2, h3⟩ := h pc (List.mem_cons_self _ _)
      simp only [List.map_cons, parseEntryLines,
        parseEntryLine_serializeEntryLine alg pc.1 pc.2 h1 h2 h3,
        ih (fun q hq => h q (List.mem_cons_of_mem _ hq))]

/-- Claim C5: for every manifest the Generate flow produces — version `None`
(src/cli/generate.rs, lines 411-418), non-empty relative-path keys, every
checksum carrying the format's algorithm (which generate forces, see C6), and
canonical byte digests — parsing the serialization with the same registered
format yields the manifest back, with equal artifact list and version.  The
shared serializer and parser are modelled from the spec (spec §6 and §8;
src/manifest/mod.rs is not among the provided sources). -/
theorem sfv_C5_roundtrip (fmt : ManifestFormat) (m : Manifest)
    (hv : m.version = none)
    (hart : ∀ pc ∈ m.artifacts, pc.1 ≠ "" ∧
      pc.2.algorithm = (formatAlgorithm fmt).getD default ∧
      ∀ b ∈ pc.2.digest, b < 256) :
    manifestParse fmt (manifestSerialize fmt m) = some m := by
  obtain ⟨ver, arts⟩ := m
  simp only at hv
  subst hv
  simp only at hart
  unfold manifestParse manifestSerialize standard_to_string standard_from_str
  rw [parseEntryLines_serialize ((formatAlgorithm fmt).getD default) arts hart]

/-- Witness for C5: a concrete one-entry BLAKE2b manifest round-trips through
the b2sum dialect. -/
theorem sfv_C5_roundtrip_witness :
    manifestParse ManifestFormat.B2SUM (manifestSerialize ManifestFormat.B2SUM
      ⟨none, [("a.txt", ⟨ChecksumAlgorithm.BLAKE2B512, ChecksumMode.Binary,
        [171, 205]⟩)]⟩) =
      some ⟨none, [("a.txt", ⟨ChecksumAlgorithm.BLAKE2B512, ChecksumMode.Binary,
        [171, 205]⟩)]⟩ :=
  sfv_C5_roundtrip ManifestFormat.B2SUM _ rfl (by decide)
